import Mathlib

/-!
Shallow embedding of the chatbot's core logic (src/index.js): the Gemini
completion call with bounded retry/backoff (`getResponse`), the per-channel
bounded history update, the outbound reply truncation, and the prefix-triggered
message handler.  Strings are modelled with Lean `String` (JS UTF-16 code units
become Lean characters), machine numbers with `Nat`/`ℚ`, and the HTTP transport
as an explicit function from attempt number to an observed fetch step.
-/

/-- Length of a string in characters, JS `s.length`. -/
def strLen (s : String) : Nat := s.data.length

/-- First `n` characters of a string, JS `s.substring(0, n)` / `s.slice(0, n)`. -/
def strTake (s : String) (n : Nat) : String := ⟨s.data.take n⟩

/-- All but the first `n` characters, JS `s.slice(n)`. -/
def strDrop (s : String) (n : Nat) : String := ⟨s.data.drop n⟩

/-- Strip leading and trailing whitespace, JS `s.trim()`. -/
def strTrim (s : String) : String :=
  ⟨((s.data.dropWhile Char.isWhitespace).reverse.dropWhile Char.isWhitespace).reverse⟩

/-- Whether `p` is a prefix of `s`, JS `s.startsWith(p)`. -/
def strStartsWith (s p : String) : Bool := p.data.isPrefixOf s.data

/-- Trigger token for the bot, `BOT_PREFIX = '!droid'` in the source. -/
def BOT_TRIGGER : String := "!droid"

/-- `MAX_HISTORY_TURNS = 5` in the source. -/
def MAX_HISTORY_TURNS : Nat := 5

/-- `MAX_RETRIES = 3` in the source: total tries of the fetch loop. -/
def MAX_RETRIES : Nat := 3

/-- One `contents` element of the Gemini payload or history: a role tag
(`"user"` or `"model"`) and the single `parts[0].text` payload. -/
structure Content where
  role : String
  text : String
deriving DecidableEq, Repr

/-- The payload's `contents` field: `[...history, {role:"user", parts:[{text}]}]`. -/
def buildContents (history : List Content) (userMessage : String) : List Content :=
  history ++ [⟨"user", userMessage⟩]

/-- What one `fetch` of the transport is observed to do.
`exn` covers any exception thrown inside the `try` block (network failure on
`fetch`, or a malformed-JSON throw from `response.json()`, which reach the same
`catch`); `resp` is a delivered response with its status, the `response.text()`
error body, and the extracted `candidates[0].content.parts[0].text` field
(`none` when the path is absent). -/
inductive FetchStep where
  | exn (msg : String)
  | resp (status : Nat) (body : String) (text : Option String)
deriving DecidableEq, Repr

/-- `response.ok`: status in the 2xx range. -/
def respOk (status : Nat) : Bool :=
  decide (200 ≤ status) && decide (status ≤ 299)

/-- The string returned from the `catch` block:
`` `Error: ${error.message.substring(0, 80)}, Ceasing.` ``. -/
def errorReturn (msg : String) : String :=
  "Error: " ++ strTake msg 80 ++ ", Ceasing."

/-- The message of the error thrown for a non-retried non-ok response:
`` `API Request failed with status ${response.status} : ${errorBody}` ``. -/
def failMsg (status : Nat) (body : String) : String :=
  "API Request failed with status " ++ toString status ++ " : " ++ body

/-- Observable outcome of one `getResponse` call: the returned string, the
number of `fetch` calls made, and the number of backoff waits performed. -/
structure RunResult where
  result : String
  fetchCalls : Nat
  waits : Nat
deriving DecidableEq, Repr

/-- The retry loop of `getResponse` (src/index.js lines 55-104), written as
structural recursion on the remaining loop iterations (`fuel`, kept equal to
`MAX_RETRIES - attempt`); `fuel = 0` is loop exit, the unreachable-by-inspection
`return "All retries failed."` at line 104. -/
def getResponseGo (step : Nat → FetchStep) : Nat → Nat → RunResult
  | 0, _ => ⟨"All retries failed.", 0, 0⟩
  | fuel + 1, attempt =>
    match step attempt with
    | .exn msg => ⟨errorReturn msg, 1, 0⟩
    | .resp status body text =>
      if respOk status then
        match text with
        | some t => if t = "" then ⟨"No comment.", 1, 0⟩ else ⟨t, 1, 0⟩
        | none => ⟨"No comment.", 1, 0⟩
      else
        if status = 429 ∧ attempt < MAX_RETRIES - 1 then
          let r := getResponseGo step fuel (attempt + 1)
          ⟨r.result, r.fetchCalls + 1, r.waits + 1⟩
        else
          ⟨errorReturn (failMsg status body), 1, 0⟩

/-- JS truthiness of `GEMINI_API_KEY`: present and not the empty string. -/
def credentialPresent : Option String → Bool
  | none => false
  | some s => !(s == "")

/-- `getResponse(userMessage, history)` from src/index.js lines 28-105, with
the ambient configuration (`GEMINI_API_KEY`) and the transport made explicit.
The transport receives the request payload (the same on every attempt) and the
attempt number. -/
def getResponse (userMessage : String) (history : List Content)
    (apiKey : Option String) (transport : List Content → Nat → FetchStep) : RunResult :=
  if credentialPresent apiKey then
    getResponseGo (transport (buildContents history userMessage)) MAX_RETRIES 0
  else
    ⟨"ERROR: API key missing", 0, 0⟩

/-- The history update in the message handler (src/index.js lines 134-144):
append the user/model pair, then if the length exceeds
`MAX_HISTORY_TURNS * 2` keep only the trailing `MAX_HISTORY_TURNS * 2`
elements (`updatedHistory.slice(updatedHistory.length - maxMessages)`). -/
def appendPair (hist : List Content) (u m : Content) : List Content :=
  if (hist ++ [u, m]).length > MAX_HISTORY_TURNS * 2 then
    (hist ++ [u, m]).drop ((hist ++ [u, m]).length - MAX_HISTORY_TURNS * 2)
  else
    hist ++ [u, m]

/-- Outbound reply formatting (src/index.js lines 146-150): over 2000
characters is truncated to the first 1980 plus the fixed marker. -/
def formatReply (s : String) : String :=
  if strLen s > 2000 then strTake s 1980 ++ " yada yada" else s

/-- The fixed usage reply for an empty prompt (src/index.js line 125). -/
def usageReply : String :=
  "No message detected. Use `" ++ BOT_TRIGGER ++ " [message]`."

/-- Observable effect of one `messageCreate` dispatch: the reply sent (if
any), the value stored into `conversationHistory` for the channel (if the
handler stored one), and how many transport calls were made. -/
structure HandlerOut where
  reply : Option String
  newHistory : Option (List Content)
  fetchCalls : Nat
deriving DecidableEq, Repr

/-- The `messageCreate` handler (src/index.js lines 112-158) for a single
message, with the channel's current history, the credential and the transport
passed explicitly. -/
def messageCreate (authorIsBot : Bool) (content : String) (hist : List Content)
    (apiKey : Option String) (transport : List Content → Nat → FetchStep) : HandlerOut :=
  if authorIsBot then ⟨none, none, 0⟩
  else if strStartsWith content BOT_TRIGGER then
    let userPrompt := strTrim (strDrop content (strLen BOT_TRIGGER))
    if userPrompt = "" then ⟨some usageReply, none, 0⟩
    else
      let r := getResponse userPrompt hist apiKey transport
      ⟨some (formatReply r.result),
       some (appendPair hist ⟨"user", userPrompt⟩ ⟨"model", r.result⟩),
       r.fetchCalls⟩
  else ⟨none, none, 0⟩

/-- The retry delay `Math.pow(2, attempt) * 1000 + Math.random() * 1000`
(src/index.js line 71), in milliseconds, with the jitter sample `r` (the value
of `Math.random()`, in `[0, 1)`) made explicit. -/
def backoffDelay (attempt : Nat) (r : ℚ) : ℚ :=
  2 ^ attempt * 1000 + r * 1000

/-- Mean of `backoffDelay attempt r` over the uniform jitter `r ∈ [0,1)`
(whose mean is `1/2`): the delay's expectation in milliseconds. -/
def expectedBackoff (attempt : Nat) : ℚ :=
  2 ^ attempt * 1000 + 500

theorem strLen_append (a b : String) : strLen (a ++ b) = strLen a + strLen b := by
  cases a; cases b; simp [strLen, String.append]

theorem strLen_strTake_le (s : String) (n : Nat) : strLen (strTake s n) ≤ n := by
  cases s; simp [strLen, strTake]

theorem appendPair_length_le (hist : List Content) (u m : Content) :
    (appendPair hist u m).length ≤ MAX_HISTORY_TURNS * 2 := by
  unfold appendPair
  split
  · rename_i h
    simp only [List.length_drop]
    omega
  · rename_i h
    omega

theorem appendPair_suffix (hist : List Content) (u m : Content) :
    List.IsSuffix (appendPair hist u m) (hist ++ [u, m]) := by
  unfold appendPair
  split
  · exact List.drop_suffix _ _
  · exact List.suffix_rfl

theorem foldl_appendPair_length_le (ps : List (Content × Content))
    (acc : List Content) (hacc : acc.length ≤ MAX_HISTORY_TURNS * 2) :
    (ps.foldl (fun h p => appendPair h p.1 p.2) acc).length ≤ MAX_HISTORY_TURNS * 2 := by
  induction ps generalizing acc with
  | nil => simpa using hacc
  | cons p ps ih =>
    simpa using ih (appendPair acc p.1 p.2) (appendPair_length_le acc p.1 p.2)

/-- C2: the stored history length never exceeds `2 * MAX_HISTORY_TURNS` (10),
after a single append from any state and after any number of appends from the
empty history, and the retained history is a suffix of the full chronological
sequence (oldest elements are the ones dropped, order preserved). -/
theorem history_bounded_fifo (hist : List Content) (u m : Content)
    (ps : List (Content × Content)) :
    (appendPair hist u m).length ≤ MAX_HISTORY_TURNS * 2 ∧
    List.IsSuffix (appendPair hist u m) (hist ++ [u, m]) ∧
    (ps.foldl (fun h p => appendPair h p.1 p.2) []).length ≤ MAX_HISTORY_TURNS * 2 :=
  ⟨appendPair_length_le hist u m, appendPair_suffix hist u m,
   foldl_appendPair_length_le ps [] (by simp)⟩

/-- C1: with the credential present and a transport that answers status 429 on
every attempt, `getResponse` makes exactly 3 fetch attempts and 2 backoff
waits, but returns the truncated request-failure string produced by the
`throw`/`catch` path — not `"All retries failed."`: the final 429 falls through
to the `throw`, so the `return "All retries failed."` of line 104 is not what
the caller receives. -/
theorem rateLimitExhaustion_eval :
    getResponse "hi" [] (some "key") (fun _ _ => FetchStep.resp 429 "quota" none) =
      ⟨"Error: API Request failed with status 429 : quota, Ceasing.", 3, 2⟩ ∧
    "Error: API Request failed with status 429 : quota, Ceasing." ≠
      "All retries failed." := by
  decide

theorem getResponseGo_rateLimited (step : Nat → FetchStep) (fuel attempt : Nat)
    (body : String) (t : Option String)
    (hstep : step attempt = .resp 429 body t) (hlt : attempt < MAX_RETRIES - 1) :
    getResponseGo step (fuel + 1) attempt =
      ⟨(getResponseGo step fuel (attempt + 1)).result,
       (getResponseGo step fuel (attempt + 1)).fetchCalls + 1,
       (getResponseGo step fuel (attempt + 1)).waits + 1⟩ := by
  simp [getResponseGo, hstep, respOk, hlt]

theorem getResponseGo_success (step : Nat → FetchStep) (fuel attempt : Nat)
    (body txt : String)
    (hstep : step attempt = .resp 200 body (some txt)) (htxt : txt ≠ "") :
    getResponseGo step (fuel + 1) attempt = ⟨txt, 1, 0⟩ := by
  simp [getResponseGo, hstep, respOk, htxt]

/-- C3: a credentialed call whose transport answers 429 on attempts 0 and 1 and
200 with nonempty extracted text on attempt 2 returns that text with exactly
3 fetch attempts and exactly 2 backoff waits. -/
theorem retryTwiceThenSuccess (u k : String) (hist : List Content)
    (tr : List Content → Nat → FetchStep) (b0 b1 b2 : String) (t0 t1 : Option String)
    (txt : String) (hk : k ≠ "") (htxt : txt ≠ "")
    (h0 : ∀ p, tr p 0 = .resp 429 b0 t0)
    (h1 : ∀ p, tr p 1 = .resp 429 b1 t1)
    (h2 : ∀ p, tr p 2 = .resp 200 b2 (some txt)) :
    getResponse u hist (some k) tr = ⟨txt, 3, 2⟩ := by
  have hcred : credentialPresent (some k) = true := by
    simp [credentialPresent, hk]
  have s1 : getResponseGo (tr (buildContents hist u)) 1 2 = ⟨txt, 1, 0⟩ :=
    getResponseGo_success _ 0 2 b2 txt (h2 _) htxt
  have s2 : getResponseGo (tr (buildContents hist u)) 2 1 = ⟨txt, 2, 1⟩ := by
    have := getResponseGo_rateLimited (tr (buildContents hist u)) 1 1 b1 t1 (h1 _)
      (by norm_num [MAX_RETRIES])
    rw [show (2:Nat) = 1 + 1 from rfl, this, s1]
  have s3 : getResponseGo (tr (buildContents hist u)) 3 0 = ⟨txt, 3, 2⟩ := by
    have := getResponseGo_rateLimited (tr (buildContents hist u)) 2 0 b0 t0 (h0 _)
      (by norm_num [MAX_RETRIES])
    rw [show (3:Nat) = 2 + 1 from rfl, this, s2]
  simpa [getResponse, hcred, MAX_RETRIES] using s3

/-- C3 witness: concrete transport, two 429s then a 200 carrying "ok". -/
theorem retryTwiceThenSuccess_witness :
    getResponse "hi" [] (some "k")
      (fun _ n => if n < 2 then FetchStep.resp 429 "q" none
                  else FetchStep.resp 200 "" (some "ok")) = ⟨"ok", 3, 2⟩ :=
  retryTwiceThenSuccess "hi" "k" []
    (fun _ n => if n < 2 then FetchStep.resp 429 "q" none
                else FetchStep.resp 200 "" (some "ok"))
    "q" "q" "" none none "ok" (by decide) (by decide)
    (fun _ => rfl) (fun _ => rfl) (fun _ => rfl)

/-- C5: with the credential absent (unset, or the falsy empty string),
`getResponse` returns the fixed missing-key error with zero transport calls,
for every user text, history and transport. -/
theorem missingCredential_noCalls (u : String) (hist : List Content)
    (tr : List Content → Nat → FetchStep) :
    getResponse u hist none tr = ⟨"ERROR: API key missing", 0, 0⟩ ∧
    getResponse u hist (some "") tr = ⟨"ERROR: API key missing", 0, 0⟩ :=
  ⟨rfl, rfl⟩

/-- C6: a 2xx response whose extracted text field is absent or empty makes
`getResponse` return the fixed placeholder `"No comment."` as an ordinary
result (one fetch, no waits), not an error. -/
theorem noContent_placeholder (u k body : String) (hist : List Content)
    (tr : List Content → Nat → FetchStep) (txt : Option String)
    (hk : k ≠ "") (h0 : ∀ p, tr p 0 = .resp 200 body txt)
    (htxt : txt = none ∨ txt = some "") :
    getResponse u hist (some k) tr = ⟨"No comment.", 1, 0⟩ := by
  have hcred : credentialPresent (some k) = true := by
    simp [credentialPresent, hk]
  have h0' := h0 (buildContents hist u)
  have s1 : getResponseGo (tr (buildContents hist u)) 3 0 = ⟨"No comment.", 1, 0⟩ := by
    rw [show (3:Nat) = 2 + 1 from rfl]
    rcases htxt with h | h <;> subst h <;> simp [getResponseGo, h0', respOk]
  simpa [getResponse, hcred, MAX_RETRIES] using s1

/-- C6 witness: a 200 response with no text field yields the placeholder. -/
theorem noContent_placeholder_witness :
    getResponse "q" [] (some "k") (fun _ _ => FetchStep.resp 200 "empty" none) =
      ⟨"No comment.", 1, 0⟩ :=
  noContent_placeholder "q" "k" "empty" []
    (fun _ _ => FetchStep.resp 200 "empty" none) none
    (by decide) (fun _ => rfl) (Or.inl rfl)

/-- C7: at any attempt of the loop (any positive remaining fuel), a non-2xx
response with a status other than 429 is terminal — exactly one more fetch, no
wait — returning the failure string that carries the status and the truncated
error body; and a transport exception is likewise terminal immediately, its
message excerpt truncated to at most 80 characters. -/
theorem nonRetryableTerminal (step : Nat → FetchStep) (fuel attempt status : Nat)
    (body msg : String) (txt : Option String)
    (hfuel : 0 < fuel) (hok : respOk status = false) (h429 : status ≠ 429) :
    (step attempt = .resp status body txt →
      getResponseGo step fuel attempt = ⟨errorReturn (failMsg status body), 1, 0⟩) ∧
    (step attempt = .exn msg →
      getResponseGo step fuel attempt = ⟨errorReturn msg, 1, 0⟩) ∧
    errorReturn msg = "Error: " ++ strTake msg 80 ++ ", Ceasing." ∧
    strLen (strTake msg 80) ≤ 80 := by
  obtain ⟨f, rfl⟩ : ∃ f, fuel = f + 1 := ⟨fuel - 1, by omega⟩
  refine ⟨?_, ?_, rfl, strLen_strTake_le msg 80⟩
  · intro h
    simp [getResponseGo, h, hok, h429]
  · intro h
    simp [getResponseGo, h]

/-- C7 witness: a 500 response at attempt 0 is terminal after one fetch. -/
theorem nonRetryableTerminal_witness :
    getResponseGo (fun _ => FetchStep.resp 500 "oops" none) 3 0 =
      ⟨errorReturn (failMsg 500 "oops"), 1, 0⟩ :=
  (nonRetryableTerminal (fun _ => FetchStep.resp 500 "oops" none) 3 0 500
    "oops" "boom" none (by decide) (by decide) (by decide)).1 rfl

/-- C4: for a jitter sample `r` in `Math.random()`'s range `[0, 1)`, the retry
delay is `2^attempt` seconds (in ms) plus the jitter contribution, bounded
below by `2^attempt` seconds and above by `2^attempt + 1` seconds, and it is
non-decreasing as the attempt number grows — for every fixed jitter sample and
hence also in expectation. -/
theorem backoffBounds (n : Nat) (r : ℚ) (h0 : 0 ≤ r) (h1 : r < 1) :
    backoffDelay n r = 2 ^ n * 1000 + r * 1000 ∧
    2 ^ n * 1000 ≤ backoffDelay n r ∧
    backoffDelay n r ≤ (2 ^ n + 1) * 1000 ∧
    backoffDelay n r ≤ backoffDelay (n + 1) r ∧
    expectedBackoff n ≤ expectedBackoff (n + 1) := by
  have hp : (0:ℚ) < 2 ^ n := by positivity
  have hmono : (2:ℚ) ^ n ≤ 2 ^ (n + 1) :=
    pow_le_pow_right₀ (by norm_num) (Nat.le_succ n)
  refine ⟨rfl, ?_, ?_, ?_, ?_⟩
  · unfold backoffDelay
    nlinarith
  · unfold backoffDelay
    nlinarith
  · unfold backoffDelay
    nlinarith
  · unfold expectedBackoff
    nlinarith

/-- C4 witness: the bounds at attempt 1 with jitter sample 1/2. -/
theorem backoffBounds_witness :
    (0:ℚ) ≤ 1/2 ∧ (1/2:ℚ) < 1 ∧
    2 ^ 1 * 1000 ≤ backoffDelay 1 (1/2) ∧
    backoffDelay 1 (1/2) ≤ (2 ^ 1 + 1) * 1000 :=
  ⟨by norm_num, by norm_num,
   (backoffBounds 1 (1/2) (by norm_num) (by norm_num)).2.1,
   (backoffBounds 1 (1/2) (by norm_num) (by norm_num)).2.2.1⟩

/-- C8: a reply longer than 2000 characters is delivered as its first 1980
characters plus the fixed marker `" yada yada"`, total length 1990 ≤ 2000;
a reply of at most 2000 characters is delivered unchanged. -/
theorem replyTruncation (s : String) :
    (strLen s > 2000 →
      formatReply s = strTake s 1980 ++ " yada yada" ∧
      strLen (formatReply s) = 1990 ∧ strLen (formatReply s) ≤ 2000) ∧
    (strLen s ≤ 2000 → formatReply s = s) := by
  constructor
  · intro h
    have he : formatReply s = strTake s 1980 ++ " yada yada" := by
      simp [formatReply, h]
    have hl : strLen (strTake s 1980) = 1980 := by
      cases s
      simp only [strLen, strTake, List.length_take] at h ⊢
      omega
    have hlen : strLen (formatReply s) = 1990 := by
      rw [he, strLen_append, hl]
      decide
    exact ⟨he, hlen, by omega⟩
  · intro h
    have h' : ¬ strLen s > 2000 := by omega
    simp [formatReply, h']

/-- C8 witness: a 2500-character reply is truncated to 1980 plus the marker. -/
theorem replyTruncation_witness :
    strLen (String.mk (List.replicate 2500 'a')) > 2000 ∧
    formatReply (String.mk (List.replicate 2500 'a')) =
      strTake (String.mk (List.replicate 2500 'a')) 1980 ++ " yada yada" ∧
    strLen (formatReply (String.mk (List.replicate 2500 'a'))) = 1990 := by
  have h : strLen (String.mk (List.replicate 2500 'a')) > 2000 := by
    simp only [strLen, List.length_replicate]
    omega
  have hc := (replyTruncation (String.mk (List.replicate 2500 'a'))).1 h
  exact ⟨h, hc.1, hc.2.1⟩

/-- C9: a non-bot message whose text starts with the trigger but whose
remainder trims to empty gets the fixed usage reply, with no transport call
and no history write. -/
theorem emptyPromptUsage (content : String) (hist : List Content)
    (k : Option String) (tr : List Content → Nat → FetchStep)
    (htrig : strStartsWith content BOT_TRIGGER = true)
    (hempty : strTrim (strDrop content (strLen BOT_TRIGGER)) = "") :
    messageCreate false content hist k tr = ⟨some usageReply, none, 0⟩ := by
  simp [messageCreate, htrig, hempty]

/-- C9 witness: the raw input exactly `"!droid"` yields the usage reply. -/
theorem emptyPromptUsage_witness :
    messageCreate false "!droid" [] none (fun _ _ => FetchStep.exn "down") =
      ⟨some usageReply, none, 0⟩ :=
  emptyPromptUsage "!droid" [] none (fun _ _ => FetchStep.exn "down")
    (by decide) (by decide)

/-- C10: the trigger match needs no separator: any non-bot message whose text
starts with `"!droid"` and whose trimmed remainder after the 6-character
prefix is nonempty proceeds to a completion call with that remainder as the
user utterance (it becomes the appended user turn), the reply being the
formatted completion result. -/
theorem triggerNoSeparator (content : String) (hist : List Content)
    (k : Option String) (tr : List Content → Nat → FetchStep)
    (htrig : strStartsWith content BOT_TRIGGER = true)
    (hne : strTrim (strDrop content (strLen BOT_TRIGGER)) ≠ "") :
    messageCreate false content hist k tr =
      ⟨some (formatReply
          (getResponse (strTrim (strDrop content (strLen BOT_TRIGGER))) hist k tr).result),
       some (appendPair hist
          ⟨"user", strTrim (strDrop content (strLen BOT_TRIGGER))⟩
          ⟨"model",
           (getResponse (strTrim (strDrop content (strLen BOT_TRIGGER))) hist k tr).result⟩),
       (getResponse (strTrim (strDrop content (strLen BOT_TRIGGER))) hist k tr).fetchCalls⟩ := by
  simp [messageCreate, htrig, hne]

/-- C10 witness: `"!droidhello"` triggers with utterance `"hello"`. -/
theorem triggerNoSeparator_witness :
    messageCreate false "!droidhello" [] (some "k")
      (fun _ _ => FetchStep.resp 200 "ok" (some "hi")) =
      ⟨some "hi", some [⟨"user", "hello"⟩, ⟨"model", "hi"⟩], 1⟩ := by
  rw [triggerNoSeparator "!droidhello" [] (some "k")
    (fun _ _ => FetchStep.resp 200 "ok" (some "hi")) (by decide) (by decide)]
  decide
